import Mathlib

/-!
Verification development for the `mcp_slack_bot` repository.

The Python sources are shallowly embedded as executable Lean definitions:

* `src/utils/tool.py`        → `Tool` and its methods;
* `src/utils/elicitation.py` → `ElicitationRequest`, `parse_intent_response`,
  `validate_tool_call` and the pending-request dictionary operations;
* `src/utils/prompt_manager.py` → `PromptsConfig`, `is_large_result`,
  `get_system_interpret_prompt`, `get_user_interpret_prompt`;
* `src/utils/slackbot.py`    → `slackbot_start_tools`, `execute_tool_slackbot`,
  the routing condition of `process_message` and its clarification branch;
* `src/utils/slack_bot.py`   → `execute_tool_sb`, `analyze_intent_parse`;
* `src/utils/server.py`      → `server_get_tools`, `server_run_tool`;
* `src/main.py`              → `main_run_tool`.

Python strings are modelled on `List Char` (code points, the unit Python
indexes and slices by); dictionaries as insertion-ordered association lists;
`json.loads` as an executable recursive-descent parser over a `JsonVal`
inductive (numbers restricted to integer literals, the only numerals the
analysed code paths are exercised with here); exceptions as `Except`/`Option`
results.  Collaborators that the orchestrator only uses through an interface
(the LLM "oracle" `chat_bot.get_response`, and the server objects held in
`SlackBot.servers`) are passed in as explicit function/record parameters,
mirroring how the Python methods consume them via duck typing.
-/

namespace McpSlackBot

/-! ## Python string primitives (operating on `List Char`) -/

/-- Named character constants, used instead of brace/quote literals. -/
def lbraceChar : Char := Char.ofNat 123

def rbraceChar : Char := Char.ofNat 125

def dquoteChar : Char := Char.ofNat 34

def squoteChar : Char := Char.ofNat 39

def backslashChar : Char := Char.ofNat 92

/-- Is `pat` a prefix of `l`? (`str.startswith`). -/
def isPrefixChars : List Char → List Char → Bool
  | [], _ => true
  | _ :: _, [] => false
  | p :: ps, c :: cs => p == c && isPrefixChars ps cs

/-- Does `pat` occur contiguously in `l`? (Python `pat in s`). -/
def infixChars (pat : List Char) : List Char → Bool
  | [] => isPrefixChars pat []
  | c :: cs => isPrefixChars pat (c :: cs) || infixChars pat cs

/-- Python `pat in s` on strings. -/
def pyIn (pat s : String) : Bool := infixChars pat.data s.data

/-- Index (in code points) of the first occurrence of `pat`, like `str.find`
(which returns -1, rendered here as `none`, when absent). -/
def findSubFrom (pat : List Char) : List Char → Nat → Option Nat
  | [], i => if pat.isEmpty then some i else none
  | c :: cs, i =>
    if isPrefixChars pat (c :: cs) then some i else findSubFrom pat cs (i + 1)

/-- `str.find` on strings. -/
def pyFind (s pat : String) : Option Nat := findSubFrom pat.data s.data 0

/-- `s.startswith pat`. -/
def pyStartsWith (s pat : String) : Bool := isPrefixChars pat.data s.data

/-- Characters treated as whitespace by `str.strip()` (ASCII range). -/
def isPySpace (c : Char) : Bool :=
  c == ' ' || c == '\t' || c == '\n' || c == '\r' ||
    c == Char.ofNat 11 || c == Char.ofNat 12

/-- `str.strip()`. -/
def pyStrip (s : String) : String :=
  String.mk (((s.data.dropWhile isPySpace).reverse.dropWhile isPySpace).reverse)

/-- `s.split("\n")`. -/
def splitLinesAux : List Char → List Char → List String
  | [], acc => [String.mk acc.reverse]
  | c :: cs, acc =>
    if c == '\n' then String.mk acc.reverse :: splitLinesAux cs []
    else splitLinesAux cs (c :: acc)

/-- `s.split("\n")` on strings. -/
def pySplitNl (s : String) : List String := splitLinesAux s.data []

/-- Replace every non-overlapping occurrence of `pat`, left to right
(`str.replace`).  Fuel is the length of the subject, enough for one step per
character. -/
def replaceAllAux : Nat → List Char → List Char → List Char → List Char
  | 0, _, _, l => l
  | _ + 1, _, _, [] => []
  | fuel + 1, pat, rep, c :: cs =>
    if isPrefixChars pat (c :: cs) then
      rep ++ replaceAllAux fuel pat rep ((c :: cs).drop pat.length)
    else
      c :: replaceAllAux fuel pat rep cs

/-- `s.replace(pat, rep)` for non-empty `pat` (the only way the source uses
it). -/
def pyReplace (s pat rep : String) : String :=
  if pat.data.isEmpty then s
  else String.mk (replaceAllAux s.data.length pat.data rep.data s.data)

/-- `s.lower()` (ASCII case folding, all the source compares). -/
def pyLower (s : String) : String := String.mk (s.data.map Char.toLower)

/-- `s[n:]` (slice from code-point index `n`). -/
def pyDropChars (s : String) (n : Nat) : String := String.mk (s.data.drop n)

/-- `s[:n]`. -/
def pyTakeChars (s : String) (n : Nat) : String := String.mk (s.data.take n)

/-- Python `len` of a string (code points). -/
def pyLen (s : String) : Nat := s.data.length

/-- Insertion-ordered dictionary lookup (`d.get(k)` / `d[k]`). -/
def alistGet? {β : Type} (l : List (String × β)) (k : String) : Option β :=
  match l.find? (fun p => p.1 == k) with
  | some p => some p.2
  | none => none

/-- Insertion-ordered dictionary store `d[k] = v`: replaces in place when the
key exists, appends otherwise (CPython dict semantics; keys are unique in any
dictionary-built list). -/
def alistSet {β : Type} : List (String × β) → String → β → List (String × β)
  | [], k, v => [(k, v)]
  | p :: rest, k, v =>
    if p.1 == k then (k, v) :: rest else p :: alistSet rest k v

/-- Dictionary key-membership test `k in d`. -/
def alistHas {β : Type} (l : List (String × β)) (k : String) : Bool :=
  l.any (fun p => p.1 == k)

/-- Dictionary deletion `del d[k]`. -/
def alistDel {β : Type} (l : List (String × β)) (k : String) :
    List (String × β) :=
  l.filter (fun p => !(p.1 == k))

/-! ## JSON values and a model of `json.loads`

The parser is a fueled recursive-descent parser accepting the JSON grammar as
`json.loads` does, restricted to integer numerals (no floats — every numeral
fed to the parser in this development is an integer) and to the string escapes
`\" \\ \/ \n \t \r \b \f`.  A failing parse models the `JSONDecodeError`
raised (and caught) in the Python sources. -/

inductive JsonVal where
  | null
  | jbool (b : Bool)
  | num (n : Int)
  | str (s : String)
  | arr (elems : List JsonVal)
  | obj (fields : List (String × JsonVal))

/-- Python dictionaries of tool arguments (insertion-ordered). -/
abbrev Args := List (String × JsonVal)

/-- Skip JSON whitespace. -/
def skipJsonWs : List Char → List Char
  | [] => []
  | c :: cs =>
    if c == ' ' || c == '\t' || c == '\n' || c == '\r' then skipJsonWs cs
    else c :: cs

/-- Parse the remainder of a JSON string literal (opening quote consumed). -/
def parseJString : Nat → List Char → List Char → Option (String × List Char)
  | 0, _, _ => none
  | _ + 1, [], _ => none
  | fuel + 1, c :: cs, acc =>
    if c == dquoteChar then some (String.mk acc.reverse, cs)
    else if c == backslashChar then
      match cs with
      | [] => none
      | e :: cs2 =>
        let dec : Option Char :=
          if e == dquoteChar then some dquoteChar
          else if e == backslashChar then some backslashChar
          else if e == '/' then some '/'
          else if e == 'n' then some '\n'
          else if e == 't' then some '\t'
          else if e == 'r' then some '\r'
          else if e == 'b' then some (Char.ofNat 8)
          else if e == 'f' then some (Char.ofNat 12)
          else none
        match dec with
        | some d => parseJString fuel cs2 (d :: acc)
        | none => none
    else parseJString fuel cs (c :: acc)

/-- Build an integer JSON numeral from its sign and digits. -/
def mkJsonNum (neg : Bool) (digits : List Char) : JsonVal :=
  let n : Nat := digits.foldl (fun a c => a * 10 + (c.toNat - 48)) 0
  JsonVal.num (if neg then -(n : Int) else (n : Int))

/-- Parse an integer JSON numeral (a `.`/`e` suffix — a float — is outside
this model and yields a parse failure). -/
def parseJNum (l : List Char) : Option (JsonVal × List Char) :=
  let pair : Bool × List Char :=
    match l with
    | c :: cs => if c == '-' then (true, cs) else (false, l)
    | [] => (false, l)
  let digits := pair.2.takeWhile Char.isDigit
  let rest := pair.2.drop digits.length
  if digits.isEmpty then none
  else
    match rest with
    | c :: _ =>
      if c == '.' || c == 'e' || c == 'E' then none
      else some (mkJsonNum pair.1 digits, rest)
    | [] => some (mkJsonNum pair.1 digits, rest)

mutual

/-- Parse one JSON value. -/
def parseJValue : Nat → List Char → Option (JsonVal × List Char)
  | 0, _ => none
  | fuel + 1, l =>
    match skipJsonWs l with
    | [] => none
    | c :: cs =>
      if c == dquoteChar then
        match parseJString (fuel + 1) cs [] with
        | some (s, rest) => some (JsonVal.str s, rest)
        | none => none
      else if c == lbraceChar then parseJObj fuel cs true []
      else if c == '[' then parseJArr fuel cs true []
      else if isPrefixChars "true".data (c :: cs) then
        some (JsonVal.jbool true, (c :: cs).drop 4)
      else if isPrefixChars "false".data (c :: cs) then
        some (JsonVal.jbool false, (c :: cs).drop 5)
      else if isPrefixChars "null".data (c :: cs) then
        some (JsonVal.null, (c :: cs).drop 4)
      else parseJNum (c :: cs)

/-- Parse object fields after the opening brace (`first` marks that no field
has been consumed yet, allowing an immediately closing brace). -/
def parseJObj : Nat → List Char → Bool → List (String × JsonVal) →
    Option (JsonVal × List Char)
  | 0, _, _, _ => none
  | fuel + 1, l, first, acc =>
    match skipJsonWs l with
    | [] => none
    | c :: cs =>
      if first && c == rbraceChar then some (JsonVal.obj acc, cs)
      else if c == dquoteChar then
        match parseJString (fuel + 1) cs [] with
        | none => none
        | some (k, rest1) =>
          match skipJsonWs rest1 with
          | [] => none
          | d :: rest2 =>
            if d == ':' then
              match parseJValue fuel rest2 with
              | none => none
              | some (v, rest3) =>
                match skipJsonWs rest3 with
                | [] => none
                | e :: rest4 =>
                  if e == ',' then parseJObj fuel rest4 false (acc ++ [(k, v)])
                  else if e == rbraceChar then
                    some (JsonVal.obj (acc ++ [(k, v)]), rest4)
                  else none
            else none
      else none

/-- Parse array elements after the opening bracket. -/
def parseJArr : Nat → List Char → Bool → List JsonVal →
    Option (JsonVal × List Char)
  | 0, _, _, _ => none
  | fuel + 1, l, first, acc =>
    match skipJsonWs l with
    | [] => none
    | c :: cs =>
      if first && c == ']' then some (JsonVal.arr acc, cs)
      else
        match parseJValue fuel (c :: cs) with
        | none => none
        | some (v, rest1) =>
          match skipJsonWs rest1 with
          | [] => none
          | d :: rest2 =>
            if d == ',' then parseJArr fuel rest2 false (acc ++ [v])
            else if d == ']' then some (JsonVal.arr (acc ++ [v]), rest2)
            else none

end

/-- `json.loads`: the whole input (up to trailing whitespace) must parse. -/
def jsonLoads (s : String) : Option JsonVal :=
  match parseJValue (2 * s.data.length + 2) s.data with
  | some (v, rest) => if (skipJsonWs rest).isEmpty then some v else none
  | none => none

/-- `json.loads` at a call site that treats the result as a dictionary (a
successful parse of a brace-delimited input is always an object). -/
def jsonLoadsObj (s : String) : Option Args :=
  match jsonLoads s with
  | some (JsonVal.obj fields) => some fields
  | _ => none

/-! ## `src/utils/tool.py` — the `Tool` class -/

/-- The global application configuration consumed by `Tool.is_allowed`
(`utils/config.py` stores `allowedTools` from `servers_config.json` in
`Config.allowed_tools`). -/
structure AppConfig where
  allowed_tools : List String
deriving Repr, DecidableEq

/-- One property entry of a JSON parameter schema: its optional `"type"` and
`"description"` keys. -/
structure PropInfo where
  type? : Option String
  description? : Option String
deriving Repr, DecidableEq

/-- A tool's `inputSchema` dictionary: its optional `"properties"` and
`"required"` keys. -/
structure InputSchema where
  properties? : Option (List (String × PropInfo))
  required? : Option (List String)
deriving Repr, DecidableEq

/-- `Tool.__init__` (tool.py lines 7-13).  The accepted keyword parameters of
this constructor are recorded separately in `tool_init_kwargs`. -/
structure Tool where
  name : String
  description : String
  input_schema : InputSchema
  config : AppConfig
  is_allowed_override : Option Bool
deriving Repr, DecidableEq

/-- The allow-list predicate shared by tool.py line 22 and server.py line 123:
allowed iff the list is empty/absent or contains the name. -/
def allowed_flag (allowList : List String) (toolName : String) : Bool :=
  allowList.isEmpty || allowList.contains toolName

/-- `Tool.is_allowed` (tool.py lines 16-22): an explicit override wins,
otherwise `not self.config.allowed_tools or self.name in
self.config.allowed_tools`. -/
def Tool.is_allowed (t : Tool) : Bool :=
  match t.is_allowed_override with
  | some b => b
  | none => allowed_flag t.config.allowed_tools t.name

/-- `Tool.get_required_parameters` (tool.py lines 145-147). -/
def Tool.get_required_parameters (t : Tool) : List String :=
  t.input_schema.required?.getD []

/-- `Tool.get_parameter_descriptions` (tool.py lines 149-155). -/
def Tool.get_parameter_descriptions (t : Tool) : List (String × String) :=
  match t.input_schema.properties? with
  | none => []
  | some props =>
    props.map (fun p => (p.1, p.2.description?.getD "No description available"))

/-- `Tool.get_parameter_info` (tool.py lines 157-171). -/
def Tool.get_parameter_info (t : Tool) : String :=
  match t.input_schema.properties? with
  | none => "No parameters required"
  | some props =>
    let required := t.input_schema.required?.getD []
    let lines := props.map (fun p =>
      let ptype := p.2.type?.getD "string"
      let pdesc := p.2.description?.getD "No description"
      let marker := if required.contains p.1 then " (REQUIRED)" else " (optional)"
      "  • " ++ p.1 ++ " (" ++ ptype ++ ")" ++ marker ++ ": " ++ pdesc)
    String.intercalate "\n" lines

/-- Heterogeneous example values produced by `Tool._get_example_value`. -/
inductive ExampleVal where
  | str (s : String)
  | int (n : Int)
  | bool (b : Bool)
  | strList (xs : List String)
deriving Repr, DecidableEq

/-- Characters ending the capture group of the `e.g.` extraction regex
`[^"\')\n]+` in `Tool._get_example_value`. -/
def isEgStopChar (c : Char) : Bool :=
  c == dquoteChar || c == squoteChar || c == ')' || c == '\n'

/-- The tail of one attempted match of `e\.g\.?\s*["\']?([^"\')\n]+)["\']?`
after the literal `e.g` (greedy on the optional components; the regex
engine's backtracking over the optional dot is not modelled — unexercised in
this development, which never evaluates the allowed branch of
`format_description`). -/
def egAfter (l : List Char) : Option String :=
  let l1 : List Char :=
    match l with
    | c :: cs => if c == '.' then cs else l
    | [] => l
  let l2 := l1.dropWhile isPySpace
  let l3 : List Char :=
    match l2 with
    | c :: cs => if c == dquoteChar || c == squoteChar then cs else l2
    | [] => l2
  let run := l3.takeWhile (fun c => !(isEgStopChar c))
  if run.isEmpty then none else some (pyStrip (String.mk run))

/-- Leftmost match of the `e.g.` example-extraction regex (case-insensitive
scan for `e.g`, then `egAfter`). -/
def egSearch : List Char → Option String
  | [] => none
  | c :: cs =>
    if isPrefixChars ['e', '.', 'g'] ((c :: cs).map Char.toLower) then
      match egAfter (cs.drop 2) with
      | some r => some r
      | none => egSearch cs
    else egSearch cs

/-- `Tool._get_example_value` (tool.py lines 73-113). -/
def getExampleValue (paramName paramType description : String) : ExampleVal :=
  let fromEg : Option String :=
    if pyIn "e.g." (pyLower description) then egSearch description.data else none
  match fromEg with
  | some v => ExampleVal.str v
  | none =>
    let p := pyLower paramName
    if pyIn "timezone" p || pyIn "zone" p then ExampleVal.str "America/New_York"
    else if pyIn "query" p || pyIn "search" p then ExampleVal.str "search term"
    else if pyIn "index" p then ExampleVal.str "logs-*"
    else if pyIn "dashboard" p then ExampleVal.str "dashboard-id"
    else if pyIn "topic" p then ExampleVal.str "topic-name"
    else if pyIn "date" p || pyIn "time" p then ExampleVal.str "2025-10-22"
    else if pyIn "id" p then ExampleVal.str "12345"
    else if pyIn "name" p then ExampleVal.str "example-name"
    else if pyIn "url" p then ExampleVal.str "https://example.com"
    else if paramType == "string" then ExampleVal.str "value"
    else if paramType == "number" || paramType == "integer" then ExampleVal.int 100
    else if paramType == "boolean" then ExampleVal.bool true
    else if paramType == "array" then ExampleVal.strList ["item1", "item2"]
    else ExampleVal.str "value"

/-- JSON string rendering used by `json.dumps` for the example values above
(escaping is not needed: every example produced contains no quote or
backslash). -/
def dumpsStr (s : String) : String :=
  String.mk (dquoteChar :: s.data ++ [dquoteChar])

/-- `json.dumps(value, indent=2)` rendering of one example value at nesting
depth 1. -/
def dumpsVal : ExampleVal → String
  | ExampleVal.str s => dumpsStr s
  | ExampleVal.int n => toString n
  | ExampleVal.bool b => if b then "true" else "false"
  | ExampleVal.strList xs =>
    if xs.isEmpty then "[]"
    else
      "[\n" ++ String.intercalate ",\n" (xs.map (fun x => "    " ++ dumpsStr x)) ++
        "\n  ]"

/-- `Tool._format_json_params` (tool.py lines 115-120): `"{}"` for an empty
dictionary, otherwise `json.dumps(params, indent=2)`. -/
def formatJsonParams (params : List (String × ExampleVal)) : String :=
  if params.isEmpty then String.mk [lbraceChar, rbraceChar]
  else
    let lines := params.map (fun p => "  " ++ dumpsStr p.1 ++ ": " ++ dumpsVal p.2)
    String.mk [lbraceChar] ++ "\n" ++ String.intercalate ",\n" lines ++ "\n" ++
      String.mk [rbraceChar]

/-- The action keywords scanned for by `Tool._extract_keywords`. -/
def actionWords : List String :=
  ["get", "fetch", "retrieve", "search", "query", "find", "list", "show",
   "create", "update", "delete", "send", "post", "publish", "subscribe"]

/-- `re.findall(r'["\']([^"\']+)["\']', description)`: non-overlapping quoted
spans, either quote character opening or closing. -/
def findQuotedAux : Nat → List Char → List String
  | 0, _ => []
  | _ + 1, [] => []
  | fuel + 1, c :: cs =>
    if c == dquoteChar || c == squoteChar then
      let run := cs.takeWhile (fun d => !(d == dquoteChar || d == squoteChar))
      if run.isEmpty then findQuotedAux fuel cs
      else
        match cs.drop run.length with
        | [] => []
        | _ :: ds => String.mk run :: findQuotedAux fuel ds
    else findQuotedAux fuel cs

/-- `re.findall` wrapper for the quoted-span regex. -/
def findQuoted (l : List Char) : List String := findQuotedAux l.length l

/-- `Tool._extract_keywords` (tool.py lines 122-143). -/
def extractKeywords (description : String) : String :=
  let descLower := pyLower description
  let acts := actionWords.filter (fun a => pyIn a descLower)
  let keywords := acts ++ findQuoted description.data
  if keywords.isEmpty then pyTakeChars description 50
  else String.intercalate ", " (keywords.take 5)

/-- The 34-character separator line of `Tool.format_description`. -/
def heavySeparator : String := "━━━━━━━━━━━━━━━━━━━━━━━━━━━━━━━━━━"

/-- The per-parameter line built inside `Tool.format_description`'s loop. -/
def formatArgLine (required : List String) (nm : String) (info : PropInfo) :
    String :=
  let argType := info.type?.getD "string"
  let argDesc := info.description?.getD "No description"
  let base := "  - " ++ nm ++ " (" ++ argType ++ "): " ++ argDesc
  if required.contains nm then base ++ " [REQUIRED]" else base ++ " [OPTIONAL]"

/-- `Tool.format_description` (tool.py lines 24-71): the empty string for a
disallowed tool, otherwise the rendered banner with parameters, a usage
example built from up to three required parameters, and extracted keywords. -/
def Tool.format_description (t : Tool) : String :=
  if !t.is_allowed then ""
  else
    let required := t.input_schema.required?.getD []
    let props := t.input_schema.properties?.getD []
    let args :=
      if t.input_schema.properties?.isSome then
        props.map (fun p => formatArgLine required p.1 p.2)
      else []
    let requiredArgs :=
      if t.input_schema.properties?.isSome then
        (props.filter (fun p => required.contains p.1)).map (fun p =>
          (p.1, getExampleValue p.1 (p.2.type?.getD "string")
            (p.2.description?.getD "No description")))
      else []
    let exampleJson := formatJsonParams (requiredArgs.take 3)
    let paramsBlock :=
      if args.isEmpty then "  (no parameters required)"
      else String.intercalate "\n" args
    "\n" ++ heavySeparator ++ "\nTOOL: " ++ t.name ++ "\n" ++ heavySeparator ++
      "\nPURPOSE: " ++ t.description ++ "\n\nPARAMETERS:\n" ++ paramsBlock ++
      "\n\nUSAGE EXAMPLE:\n[" ++ t.name ++ "]\n" ++ exampleJson ++
      "\n\nUSE THIS TOOL WHEN: User asks about " ++ extractKeywords t.description ++
      "\n" ++ heavySeparator ++ "\n"

/-! ## `src/utils/prompt_manager.py` — `PromptManager` -/

/-- The slices of the prompts configuration the claims touch: the `defaults`,
`server_prompts` and `thresholds` sections of `prompts_config.yaml` (or of the
fallback configuration). -/
structure PromptsConfig where
  defaults : List (String × String)
  server_prompts : List (String × List (String × String))
  thresholds : List (String × Nat)
deriving Repr, DecidableEq

/-- `PromptManager._get_fallback_config` (prompt_manager.py lines 40-55),
used when `prompts/prompts_config.yaml` is missing or invalid. -/
def fallbackConfig : PromptsConfig where
  defaults :=
    [("system_intent_analysis",
      "You are an expert at analyzing user queries and determining which tool to use."),
     ("system_interpret_result", "Analyze the data and present useful information."),
     ("system_interpret_large", "Extract and present the most relevant information."),
     ("user_interpret_result",
      "User asked: \"\x7buser_query\x7d\"\n\nTool returned:\n\x7bresult\x7d\n\nPresent the key information."),
     ("user_interpret_large",
      "User asked: \"\x7buser_query\x7d\"\n\nTool returned:\n\x7bresult\x7d\n\nExtract the most useful information.")]
  server_prompts := []
  thresholds := [("large_response_chars", 2000)]

/-- `PromptManager.is_large_result` (prompt_manager.py lines 142-145):
`len(result) > thresholds.get("large_response_chars", 2000)`. -/
def is_large_result (cfg : PromptsConfig) (result : String) : Bool :=
  let threshold := (alistGet? cfg.thresholds "large_response_chars").getD 2000
  pyLen result > threshold

/-- The server-specific override consulted first by
`get_system_interpret_prompt` (prompt_manager.py lines 89-92): present iff
`server_name` is truthy, has an entry in `server_prompts`, and that entry has
a `system_interpret_result` key. -/
def system_interpret_override (cfg : PromptsConfig) (server_name : Option String) :
    Option String :=
  match server_name with
  | some sn =>
    if sn == "" then none
    else
      match alistGet? cfg.server_prompts sn with
      | some sc => alistGet? sc "system_interpret_result"
      | none => none
  | none => none

/-- `PromptManager.get_system_interpret_prompt` (prompt_manager.py lines
77-98): a server-specific prompt wins regardless of `is_large`; otherwise the
large or standard default is chosen by the flag. -/
def get_system_interpret_prompt (cfg : PromptsConfig) (server_name : Option String)
    (is_large : Bool) : String :=
  match system_interpret_override cfg server_name with
  | some p => p
  | none =>
    if is_large then
      (alistGet? cfg.defaults "system_interpret_large").getD
        "Extract and present relevant information."
    else
      (alistGet? cfg.defaults "system_interpret_result").getD
        "Analyze and present useful information."

/-- One-pass substitution of `{field}` placeholders, modelling
`str.format(user_query=..., tool_name=..., result=...)` on the interpret
templates (an unterminated or unknown field, which would raise in Python, is
left in place — no template used here has one). -/
def pyFormatAux (vals : List (String × String)) :
    Nat → List Char → List Char → String
  | 0, l, acc => String.mk (acc.reverse ++ l)
  | _ + 1, [], acc => String.mk acc.reverse
  | fuel + 1, c :: cs, acc =>
    if c == lbraceChar then
      let nm := cs.takeWhile (fun d => !(d == rbraceChar))
      match cs.drop nm.length with
      | [] => String.mk (acc.reverse ++ (c :: cs))
      | _ :: rest =>
        match alistGet? vals (String.mk nm) with
        | some v => pyFormatAux vals fuel rest (v.data.reverse ++ acc)
        | none => pyFormatAux vals fuel rest ((rbraceChar :: nm.reverse) ++ lbraceChar :: acc)
    else pyFormatAux vals fuel cs (c :: acc)

/-- `template.format(...)` with the three fields used by
`get_user_interpret_prompt`. -/
def pyFormat (vals : List (String × String)) (template : String) : String :=
  pyFormatAux vals template.data.length template.data []

/-- `PromptManager.get_user_interpret_prompt` (prompt_manager.py lines
100-140): a truthy server-specific `user_interpret_result` template wins
regardless of `is_large`; otherwise the large/standard default template; the
chosen template is then formatted with the query, tool name and result. -/
def get_user_interpret_prompt (cfg : PromptsConfig) (user_query tool_name result : String)
    (server_name : Option String) (is_large : Bool) : String :=
  let fromServer : Option String :=
    match server_name with
    | some sn =>
      if sn == "" then none
      else
        match alistGet? cfg.server_prompts sn with
        | some sc => alistGet? sc "user_interpret_result"
        | none => none
    | none => none
  let template :=
    match fromServer with
    | some tmpl =>
      if tmpl == "" then
        if is_large then (alistGet? cfg.defaults "user_interpret_large").getD ""
        else (alistGet? cfg.defaults "user_interpret_result").getD ""
      else tmpl
    | none =>
      if is_large then (alistGet? cfg.defaults "user_interpret_large").getD ""
      else (alistGet? cfg.defaults "user_interpret_result").getD ""
  pyFormat
    [("user_query", user_query), ("tool_name", tool_name), ("result", result)]
    template

/-! ## `src/utils/elicitation.py` — `ElicitationHandler` -/

/-- `ElicitationRequest` (elicitation.py lines 10-17). -/
structure ElicitationRequest where
  tool_name : String
  missing_params : List String
  ambiguous_query : Option String
  suggested_values : Option Args
  question : String

/-- `ElicitationHandler.pending_requests` (elicitation.py line 41): a
dictionary keyed by channel id alone. -/
abbrev PendingMap := List (String × ElicitationRequest)

/-- `ElicitationHandler.create_elicitation_request` (elicitation.py lines
385-417): builds the request (`missing_params or []`) and stores it under the
channel id. -/
def create_elicitation_request (m : PendingMap) (channel_id tool_name question : String)
    (missing_params : Option (List String)) (suggested_values : Option Args)
    (original_query : Option String) : ElicitationRequest × PendingMap :=
  let request : ElicitationRequest :=
    { tool_name := tool_name
      missing_params := missing_params.getD []
      ambiguous_query := original_query
      suggested_values := suggested_values
      question := question }
  (request, alistSet m channel_id request)

/-- `ElicitationHandler.has_pending_request` (elicitation.py lines 419-421). -/
def has_pending_request (m : PendingMap) (channel_id : String) : Bool :=
  alistHas m channel_id

/-- `ElicitationHandler.get_pending_request` (elicitation.py lines 423-425). -/
def get_pending_request (m : PendingMap) (channel_id : String) :
    Option ElicitationRequest :=
  alistGet? m channel_id

/-- `ElicitationHandler.clear_pending_request` (elicitation.py lines 427-430). -/
def clear_pending_request (m : PendingMap) (channel_id : String) : PendingMap :=
  alistDel m channel_id

/-- The fixed not-available message of elicitation.py line 168. -/
def sorryNoAccessMsg : String :=
  "Sorry, I don't have access to a tool that can do that right now."

/-- The fixed parse-trouble message of elicitation.py line 184. -/
def parseTroubleMsg : String :=
  "I had trouble parsing the parameters. Could you rephrase your request?"

/-- Inner scan of `re.search(r'\{[^{}]*\}', ...)`: content after an opening
brace; a second opening brace restarts the candidate there (the regex can
only match from an opening brace, and the skipped characters contain none). -/
def braceGroupInner : List Char → List Char → Option (List Char)
  | [], _ => none
  | c :: cs, acc =>
    if c == rbraceChar then some acc.reverse
    else if c == lbraceChar then braceGroupInner cs []
    else braceGroupInner cs (c :: acc)

/-- Leftmost match of `\{[^{}]*\}` (a brace pair with no brace between). -/
def braceGroupScan : List Char → Option (List Char)
  | [] => none
  | c :: cs => if c == lbraceChar then braceGroupInner cs [] else braceGroupScan cs

/-- `re.search(r'\{[^{}]*\}', s)` returning the whole match. -/
def searchBraceGroup (s : String) : Option String :=
  match braceGroupScan s.data with
  | some inner => some (String.mk (lbraceChar :: (inner ++ [rbraceChar])))
  | none => none

/-- `args_start = response.find("ARGS:") + 5; response[args_start:]`
(elicitation.py lines 171-172).  When the marker is absent — impossible at
the call site, which is guarded by `"ARGS:" in response` — Python's `find`
yields -1 and the slice starts at index 4, which is modelled exactly. -/
def pyAfterArgsMarker (response : String) : String :=
  match pyFind response "ARGS:" with
  | some i => pyDropChars response (i + 5)
  | none => pyDropChars response 4

/-- `ElicitationHandler._parse_intent_response` (elicitation.py lines
115-190), as a function of the oracle reply and the catalog of available
tools, returning the `(tool_name, arguments, clarification_question)`
triple. -/
def parse_intent_response (response : String) (available_tools : List Tool) :
    Option String × Option Args × Option String :=
  if pyIn "GREETING: true" response || pyIn "GREETING:true" response then
    (some "GREETING", none, none)
  else if pyIn "CONVERSATIONAL: true" response || pyIn "CONVERSATIONAL:true" response then
    (none, none, none)
  else if pyIn "CLARIFY:" response then
    let lines := pySplitNl response
    match lines.filter (fun l => pyStartsWith l "CLARIFY:") with
    | [] => (none, none, none)
    | clarifyLine :: _ =>
      let question := pyStrip (pyReplace clarifyLine "CLARIFY:" "")
      let toolName : Option String :=
        if pyIn "TOOL:" response then
          match lines.filter (fun l => pyStartsWith l "TOOL:") with
          | [] => none
          | tl :: _ => some (pyStrip (pyReplace tl "TOOL:" ""))
        else none
      (toolName, none, some question)
  else if pyIn "TOOL:" response && pyIn "ARGS:" response then
    let lines := pySplitNl response
    match lines.filter (fun l => pyStartsWith l "TOOL:") with
    | [] => (none, none, none)
    | toolLine :: _ =>
      let toolName := pyStrip (pyReplace toolLine "TOOL:" "")
      if available_tools.any (fun t => t.name == toolName) then
        let argsStr := pyStrip (pyAfterArgsMarker response)
        match searchBraceGroup argsStr with
        | some g =>
          match jsonLoadsObj g with
          | some args => (some toolName, some args, none)
          | none => (none, none, some parseTroubleMsg)
        | none => (some toolName, some [], none)
      else (none, none, some sorryNoAccessMsg)
  else (none, none, none)

/-- The clarification question built by `validate_tool_call` for a non-empty
missing list (elicitation.py lines 219-226). -/
def missing_params_question (tool_name : String) (tool : Tool)
    (missing : List String) : String :=
  let descs := tool.get_parameter_descriptions
  let missingInfo := missing.map (fun p =>
    let d := (alistGet? descs p).getD "No description"
    "- **" ++ p ++ "**: " ++ d)
  "To use the **" ++ tool_name ++ "** tool, I need the following information:\n\n" ++
    String.intercalate "\n" missingInfo

/-- `ElicitationHandler.validate_tool_call` (elicitation.py lines 192-228):
`None` when the schema requires nothing or every required key is present,
otherwise the question listing the missing keys.  The function consults no
oracle — it is a pure function of the schema and the argument keys. -/
def validate_tool_call (tool_name : String) (args : Args) (tool : Tool) :
    Option String :=
  let required := tool.get_required_parameters
  if required.isEmpty then none
  else
    let missing := required.filter (fun p => !(alistHas args p))
    if missing.isEmpty then none
    else some (missing_params_question tool_name tool missing)

/-! ## `src/utils/slackbot.py` — `SlackBot` (elicitation-based variant)

The orchestrator consumes its collaborators through their interfaces: the
oracle `chat_bot.get_response` as a `List OracleMsg → String` function, and
each entry of `self.servers` via `name` / `start()` / `get_tools()` /
`run_tool()` (duck typing; `utils/server.py`'s `Server`, embedded further
below, is one implementation). -/

/-- One `{"role": ..., "content": ...}` message sent to the oracle. -/
structure OracleMsg where
  role : String
  content : String

/-- The oracle interface `chat_bot.get_response`. -/
abbrev Oracle := List OracleMsg → String

/-- The surface of a server object as used by `SlackBot`: `start()` either
returns or raises `start_exc`; `get_tools()` returns `tools`; `run_tool`
produces the (extracted) textual result. -/
structure ServerHandle where
  name : String
  start_exc : Option String
  tools : List Tool
  run_tool : String → Args → String
  is_http : Bool

/-- Externally visible calls made while executing a tool. -/
inductive CallEvent where
  | runTool (server tool_name : String) (args : Args)
  | oracleCall

/-- Is an oracle invocation among the recorded events? -/
def hasOracleCall : List CallEvent → Bool
  | [] => false
  | CallEvent.oracleCall :: _ => true
  | _ :: es => hasOracleCall es

/-- Is a transport invocation (`server.run_tool`) among the recorded events? -/
def hasRunToolCall : List CallEvent → Bool
  | [] => false
  | CallEvent.runTool _ _ _ :: _ => true
  | _ :: es => hasRunToolCall es

/-- The server-initialization loop of `SlackBot.start` (slackbot.py lines
85-113): per server, `start()` then `get_tools()` inside one `try`; a raising
server is logged and skipped; `all_tools` collects every reported tool,
`tools` only the allowed ones.  Returns `(all_tools, tools)`. -/
def slackbot_start_tools : List ServerHandle → List Tool × List Tool
  | [] => ([], [])
  | s :: rest =>
    let restPair := slackbot_start_tools rest
    match s.start_exc with
    | some _ => restPair
    | none =>
      let newTools := s.tools
      let allowedTools := newTools.filter (fun t => t.is_allowed)
      (newTools ++ restPair.1, allowedTools ++ restPair.2)

/-- The `tools_info` block rendered for the oracle by
`ElicitationHandler.analyze_user_intent` (elicitation.py lines 67-70) from
the tool list the bot passes in. -/
def tools_info_block (tools : List Tool) : String :=
  String.intercalate "\n" (tools.map (fun t =>
    "- " ++ t.name ++ ": " ++ t.description ++ "\n  Parameters: " ++
      t.get_parameter_info))

/-- The denial message of `SlackBot.execute_tool` (slackbot.py line 426). -/
def slackbot_denial_msg (tool_name : String) : String :=
  "Sorry, the tool '" ++ tool_name ++ "' is not available or not allowed."

/-- `_extract_tool_result` (slackbot.py lines 477-494) on the string results
produced by the modelled `run_tool`: a plain string has no `content`
attribute, so the source falls through to `str(result)` — the identity. -/
def extract_tool_result (result : String) : String := result

/-- The server loop of `SlackBot.execute_tool` (slackbot.py lines 429-471):
per server, `get_tools()` is consulted afresh and the first server holding an
allowed tool of the requested name runs it; the textual result is then sent
to the oracle for interpretation with the size-dependent prompts. -/
def execute_tool_slackbot_loop (cfg : PromptsConfig) (oracle : Oracle)
    (tool_name : String) (args : Args) (original_query : String) :
    List ServerHandle → String × List CallEvent
  | [] => ("Sorry, couldn't find tool: " ++ tool_name, [])
  | srv :: rest =>
    let serverTools := srv.tools
    match serverTools.find? (fun t => t.name == tool_name && t.is_allowed) with
    | none => execute_tool_slackbot_loop cfg oracle tool_name args original_query rest
    | some _ =>
      let result := srv.run_tool tool_name args
      let result_text := extract_tool_result result
      let is_large := is_large_result cfg result_text
      let system_prompt := get_system_interpret_prompt cfg (some srv.name) is_large
      let user_prompt :=
        get_user_interpret_prompt cfg original_query tool_name result_text
          (some srv.name) is_large
      let interpretation :=
        oracle [{ role := "system", content := system_prompt },
                { role := "user", content := user_prompt }]
      (interpretation,
       [CallEvent.runTool srv.name tool_name args, CallEvent.oracleCall])

/-- `SlackBot.execute_tool` (slackbot.py lines 408-475): the allow-list
re-check against the bot's tool list precedes any server interaction; a name
with no allowed entry is denied with no transport or oracle call. -/
def execute_tool_slackbot (cfg : PromptsConfig) (oracle : Oracle)
    (bot_tools : List Tool) (servers : List ServerHandle)
    (tool_name : String) (args : Args) (original_query : String) :
    String × List CallEvent :=
  if bot_tools.any (fun t => t.name == tool_name && t.is_allowed) then
    execute_tool_slackbot_loop cfg oracle tool_name args original_query servers
  else (slackbot_denial_msg tool_name, [])

/-- An inbound message event as consumed by `process_message`. -/
structure MsgEvent where
  channel : String
  user : String
  text : String
deriving Repr, DecidableEq

/-- The routing condition of `SlackBot.process_message` (slackbot.py line
192): a message enters clarification resolution iff
`self.elicitation_handler.has_pending_request(channel)` — the sender is not
consulted. -/
def process_routes_to_clarification (pending : PendingMap) (event : MsgEvent) :
    Bool :=
  has_pending_request pending event.channel

/-- Python `tool_name or "unknown"` (slackbot.py line 276). -/
def pyOrUnknown : Option String → String
  | some s => if s == "" then "unknown" else s
  | none => "unknown"

/-- The clarification outcome branch of `SlackBot.process_message` (slackbot.py
lines 272-279): a truthy clarification in the intent-analysis triple records
a pending elicitation request for the channel under `tool_name or
"unknown"` with the user's text as original query. -/
def process_clarification_outcome (pending : PendingMap) (channel text : String)
    (decision : Option String × Option Args × Option String) : PendingMap :=
  match decision.2.2 with
  | some q =>
    if q == "" then pending
    else (create_elicitation_request pending channel (pyOrUnknown decision.1) q
      none none (some text)).2
  | none => pending

/-! ## `src/utils/slack_bot.py` — `SlackBot` (JSON-intent variant) -/

/-- `_extract_text` (slack_bot.py lines 322-328) on string results: identity,
as for `extract_tool_result`. -/
def extract_text (result : String) : String := result

/-- The server loop of `SlackBot.execute_tool` (slack_bot.py lines 298-317):
the first server whose `get_tools()` holds an allowed matching tool runs it;
an empty or all-whitespace result short-circuits to the fixed message with no
oracle call; otherwise one oracle call formats the result (falling back to
the raw result if the oracle returns blank). -/
def execute_tool_sb_loop (oracle : Oracle) (tool_name : String) (args : Args) :
    List ServerHandle → String × List CallEvent
  | [] => ("Tool '" ++ tool_name ++ "' not found.", [])
  | srv :: rest =>
    if srv.tools.any (fun t => t.name == tool_name && t.is_allowed) then
      let result := srv.run_tool tool_name args
      let result_text := extract_text result
      if result_text == "" || pyStrip result_text == "" then
        ("Tool executed but returned no data.",
         [CallEvent.runTool srv.name tool_name args])
      else
        let system_prompt :=
          "Format this tool result as a helpful Slack message:\n\nResult: " ++
            result_text
        let interpretation := oracle [{ role := "system", content := system_prompt }]
        if interpretation == "" || pyStrip interpretation == "" then
          (result_text, [CallEvent.runTool srv.name tool_name args,
            CallEvent.oracleCall])
        else
          (interpretation, [CallEvent.runTool srv.name tool_name args,
            CallEvent.oracleCall])
    else execute_tool_sb_loop oracle tool_name args rest

/-- `SlackBot.execute_tool` (slack_bot.py lines 289-320), with its own
allow-list re-check and denial message. -/
def execute_tool_sb (oracle : Oracle) (bot_tools : List Tool)
    (servers : List ServerHandle) (tool_name : String) (args : Args) :
    String × List CallEvent :=
  if bot_tools.any (fun t => t.name == tool_name && t.is_allowed) then
    execute_tool_sb_loop oracle tool_name args servers
  else ("Tool '" ++ tool_name ++ "' is not available.", [])

/-- `re.sub(r'<think>.*?</think>', '', response, flags=re.DOTALL)`: remove
each non-greedy think span, resuming after the removed span. -/
def removeThinkAux : Nat → List Char → List Char
  | 0, l => l
  | fuel + 1, l =>
    match findSubFrom "<think>".data l 0 with
    | none => l
    | some i =>
      let tailAfterOpen := l.drop (i + 7)
      match findSubFrom "</think>".data tailAfterOpen 0 with
      | none => l
      | some j =>
        l.take i ++ removeThinkAux fuel (tailAfterOpen.drop (j + 8))

/-- `cleaned` as computed in `_analyze_intent` (slack_bot.py line 205):
think spans removed, then stripped. -/
def cleaned_response (response : String) : String :=
  pyStrip (String.mk (removeThinkAux response.data.length response.data))

/-- The brace-depth scan of `_analyze_intent` (slack_bot.py lines 214-227)
starting at the first `{`: the length of the balanced span when the depth
returns to zero, `none` when it never does (`brace_count != 0`). -/
def braceDepthAux : List Char → Int → Nat → Option Nat
  | [], _, _ => none
  | c :: cs, depth, idx =>
    let depth2 : Int :=
      if c == lbraceChar then depth + 1
      else if c == rbraceChar then depth - 1
      else depth
    if c == rbraceChar && depth2 == 0 then some (idx + 1)
    else braceDepthAux cs depth2 (idx + 1)

/-- Balanced-span length from the start of `l`. -/
def braceDepthEnd (l : List Char) : Option Nat := braceDepthAux l 0 0

/-- `data.get(k)` on the parsed JSON object: `None` for a missing key, and
the stored `None` for a JSON `null` value. -/
def jGet (fields : List (String × JsonVal)) (k : String) : Option JsonVal :=
  match alistGet? fields k with
  | some JsonVal.null => none
  | v => v

/-- The response-parsing part of `SlackBot._analyze_intent` (slack_bot.py
lines 199-235): strip think tags, locate the first `{`, scan to the matching
brace by depth counting, `json.loads` the span, and read the `tool_name` /
`args` / `clarification` keys; every failure (no `{`, unmatched braces,
invalid JSON) degrades to `(None, None, None)`. -/
def analyze_intent_parse (response : String) :
    Option JsonVal × Option JsonVal × Option JsonVal :=
  let cleaned := cleaned_response response
  match findSubFrom [lbraceChar] cleaned.data 0 with
  | none => (none, none, none)
  | some start =>
    let tailChars := cleaned.data.drop start
    match braceDepthEnd tailChars with
    | none => (none, none, none)
    | some spanLen =>
      match jsonLoads (String.mk (tailChars.take spanLen)) with
      | some (JsonVal.obj fields) =>
        (jGet fields "tool_name", jGet fields "args", jGet fields "clarification")
      | _ => (none, none, none)

/-! ## `src/utils/server.py` — `Server` -/

/-- One tool definition as reported by `session.list_tools()`: `name`,
optional `description` and optional `inputSchema`. -/
structure ToolDef where
  name : String
  description? : Option String
  inputSchema? : Option InputSchema
deriving Repr, DecidableEq

/-- The keyword parameters accepted by `Tool.__init__` (tool.py line 7). -/
def tool_init_kwargs : List String :=
  ["name", "description", "input_schema", "config", "is_allowed"]

/-- The keyword arguments passed to `Tool(...)` by `Server.get_tools`
(server.py lines 128-135). -/
def server_get_tools_call_kwargs : List String :=
  ["name", "description", "input_schema", "config", "is_allowed", "server_name"]

/-- Python call semantics for the `Tool(...)` construction in
`Server.get_tools`: a keyword argument that is not a parameter of
`Tool.__init__` raises `TypeError`; otherwise the tool is built with
`description or ""` and `inputSchema or {}`. -/
def construct_tool_from_def (app_config : AppConfig) (allowed : Bool)
    (td : ToolDef) : Except String Tool :=
  if server_get_tools_call_kwargs.all (fun k => tool_init_kwargs.contains k) then
    Except.ok
      { name := td.name
        description := td.description?.getD ""
        input_schema := td.inputSchema?.getD { properties? := none, required? := none }
        config := app_config
        is_allowed_override := some allowed }
  else
    Except.error
      "TypeError: __init__() got an unexpected keyword argument 'server_name'"

/-- The construction loop of `Server.get_tools` (server.py lines 122-136): a
raised `TypeError` aborts the whole loop (it propagates to the enclosing
`except`). -/
def construct_all (app_config : AppConfig) (allowedList : List String) :
    List ToolDef → Except String (List Tool)
  | [] => Except.ok []
  | td :: rest =>
    let allowed := allowed_flag allowedList td.name
    match construct_tool_from_def app_config allowed td with
    | Except.error e => Except.error e
    | Except.ok t =>
      match construct_all app_config allowedList rest with
      | Except.error e => Except.error e
      | Except.ok ts => Except.ok (t :: ts)

/-- The state of a `utils/server.py` `Server` relevant to `get_tools`:
`session` (`none` when not connected, otherwise the `list_tools()` result),
the `tools_cache`, the `allowed_tools` attribute read via
`getattr(self, 'allowed_tools', [])` (never assigned anywhere in `src/`),
and the application config. -/
structure ServerState where
  name : String
  session : Option (List ToolDef)
  tools_cache : List Tool
  allowed_tools : List String
  app_config : AppConfig

/-- `Server.get_tools` (server.py lines 108-146): `[]` without a session;
otherwise each listed tool is passed to `Tool(...)` with the `server_name`
keyword — any raised exception is caught by the enclosing handler, which
returns `[]` leaving `tools_cache` untouched; only a fully successful loop
stores and returns the tools. -/
def server_get_tools (st : ServerState) : List Tool × ServerState :=
  match st.session with
  | none => ([], st)
  | some tds =>
    match construct_all st.app_config st.allowed_tools tds with
    | Except.ok tools => (tools, { st with tools_cache := tools })
    | Except.error _ => ([], st)

/-- A `session.call_tool` response: `isError` flag and textual content. -/
structure CallToolResult where
  isError : Bool
  content : String
deriving Repr, DecidableEq

/-- `Server.run_tool` (server.py lines 148-161): no retry — one
`call_tool` attempt whose exception is converted into an `"Error: ..."`
string.  The session is modelled as a stream of per-attempt outcomes
(`call n` = the result of the (n+1)-th `call_tool` invocation); the second
component counts the attempts actually made. -/
def server_run_tool (session : Option (Nat → Except String CallToolResult))
    (_tool_name : String) (_args : Args) : String × Nat :=
  match session with
  | none => ("Error: Server not connected", 0)
  | some call =>
    match call 0 with
    | Except.ok resp =>
      (if resp.isError then "Tool error: " ++ resp.content else resp.content, 1)
    | Except.error e => ("Error: " ++ e, 1)

/-! ## `src/main.py` — `Server.run_tool` (retrying variant) -/

/-- The observable outcome of `main.py`'s `Server.run_tool`: the returned
response or propagated exception, the number of `call_tool` attempts, and
the backoff sleeps (in seconds) taken between attempts. -/
structure MainRunOutcome where
  result : Except String CallToolResult
  attempts : Nat
  sleeps : List Nat
deriving Repr

/-- `Server.run_tool` (main.py lines 123-137): without a session a
`RuntimeError` is raised; otherwise `for attempt in range(2)` tries
`call_tool`, sleeping 1 second and retrying exactly once after a first
failure, and re-raising a second failure unmodified. -/
def main_run_tool (server_name : String)
    (session : Option (Nat → Except String CallToolResult)) : MainRunOutcome :=
  match session with
  | none =>
    { result := Except.error ("RuntimeError: Server " ++ server_name ++ " not started")
      attempts := 0
      sleeps := [] }
  | some call =>
    match call 0 with
    | Except.ok r => { result := Except.ok r, attempts := 1, sleeps := [] }
    | Except.error _ =>
      match call 1 with
      | Except.ok r => { result := Except.ok r, attempts := 2, sleeps := [1] }
      | Except.error e2 =>
        { result := Except.error e2, attempts := 2, sleeps := [1] }

/-! ## Concrete fixtures used by witnesses and counterexamples -/

/-- A global configuration with an empty `allowedTools` list. -/
def emptyGlobalConfig : AppConfig := { allowed_tools := [] }

/-- A schema with one required `symbol` parameter. -/
def symbolSchema : InputSchema where
  properties? :=
    some [("symbol",
      { type? := some "string", description? := some "Trading pair symbol" })]
  required? := some ["symbol"]

/-- An allowed price-lookup tool. -/
def getPriceTool : Tool where
  name := "get_price"
  description := "Get current price for a symbol"
  input_schema := symbolSchema
  config := emptyGlobalConfig
  is_allowed_override := some true

/-- An allowed search tool with no schema. -/
def webSearchTool : Tool where
  name := "web_search"
  description := "Search the web"
  input_schema := { properties? := none, required? := none }
  config := emptyGlobalConfig
  is_allowed_override := some true

/-- The allow-list of the fixture server `alpha`. -/
def alphaAllowList : List String := ["get_price"]

/-- `transfer_funds` as constructed for server `alpha`, whose non-empty
allow-list does not contain it: the override is the computed allow flag. -/
def transferToolAlpha : Tool where
  name := "transfer_funds"
  description := "Transfer funds"
  input_schema := { properties? := none, required? := none }
  config := emptyGlobalConfig
  is_allowed_override := some (allowed_flag alphaAllowList "transfer_funds")

/-- `transfer_funds` as constructed for server `beta`, whose allow-list is
empty (everything allowed). -/
def transferToolBeta : Tool where
  name := "transfer_funds"
  description := "Transfer funds elsewhere"
  input_schema := { properties? := none, required? := none }
  config := emptyGlobalConfig
  is_allowed_override := some (allowed_flag [] "transfer_funds")

/-- Fixture server `alpha`: reports an allowed tool and the disallowed
`transfer_funds`. -/
def serverAlpha : ServerHandle where
  name := "alpha"
  start_exc := none
  tools := [getPriceTool, transferToolAlpha]
  run_tool := fun _ _ => "alpha-result"
  is_http := false

/-- Fixture server `beta`: exposes its own allowed `transfer_funds`. -/
def serverBeta : ServerHandle where
  name := "beta"
  start_exc := none
  tools := [transferToolBeta]
  run_tool := fun _ _ => "beta-result"
  is_http := false

/-- A server whose tool execution yields an empty result. -/
def emptyResultServer : ServerHandle where
  name := "srv"
  start_exc := none
  tools := [getPriceTool]
  run_tool := fun _ _ => ""
  is_http := false

/-- A constant oracle. -/
def constOracle : Oracle := fun _ => "INTERPRETED"

/-- An oracle reply naming a tool outside the catalog. -/
def uncatalogedToolReply : String :=
  "TOOL: transfer_funds\nARGS: \x7b\"amount\": 5\x7d"

/-- An oracle reply whose arguments section has an unbalanced opening brace. -/
def unbalancedArgsReply : String :=
  "TOOL: web_search\nARGS: \x7b\"query\": \"btc"

/-- A JSON-intent oracle reply with an unbalanced opening brace. -/
def unbalancedJsonReply : String := "\x7b\"tool_name\": \"x\""

/-- A prompts configuration carrying a server-specific standard interpret
prompt for server `srv`. -/
def overrideCfg : PromptsConfig where
  defaults := fallbackConfig.defaults
  server_prompts := [("srv", [("system_interpret_result", "CUSTOM")])]
  thresholds := [("large_response_chars", 2000)]

/-- A 2001-character tool result. -/
def bigResult : String := String.mk (List.replicate 2001 'a')

/-- A server whose `start()` raises `err` (used to state startup isolation
without a side condition). -/
def failingServer (nm err : String) (ts : List Tool)
    (rt : String → Args → String) (hb : Bool) : ServerHandle where
  name := nm
  start_exc := some err
  tools := ts
  run_tool := rt
  is_http := hb

/-- The two-server deployment with a duplicated tool name. -/
def collisionServers : List ServerHandle := [serverAlpha, serverBeta]

/-- The bot tool list `SlackBot.start` builds from the collision deployment. -/
def c1BotTools : List Tool := (slackbot_start_tools collisionServers).2

/-- Executing the duplicated name against the collision deployment. -/
def c1Execution : String × List CallEvent :=
  execute_tool_slackbot fallbackConfig constOracle c1BotTools collisionServers
    "transfer_funds" [] "transfer please"

/-- Executing a tool whose result is empty through `slackbot.py`'s
`execute_tool`. -/
def c8Execution : String × List CallEvent :=
  execute_tool_slackbot fallbackConfig constOracle [getPriceTool]
    [emptyResultServer] "get_price" [] "price?"

/-- The pending request the C4 counterexample shows being recorded. -/
def c4RecordedRequest : ElicitationRequest where
  tool_name := "unknown"
  missing_params := []
  ambiguous_query := some "send 5 bucks"
  suggested_values := none
  question := sorryNoAccessMsg

/-- The pending map after a clarification was recorded while processing a
message from user `userU` in channel `C1CHAN` (slackbot.py lines 275-277
store it keyed by channel only). -/
def pendingFromU : PendingMap :=
  (create_elicitation_request [] "C1CHAN" "unknown" "Which symbol do you want?"
    none none (some "what is the price?")).2

/-- The tool definition reported by the stub session below. -/
def stubToolDef : ToolDef where
  name := "get_price"
  description? := some "Get price"
  inputSchema? := none

/-- A server state whose session reports one tool. -/
def stubServerState : ServerState where
  name := "alpha"
  session := some [stubToolDef]
  tools_cache := []
  allowed_tools := []
  app_config := emptyGlobalConfig

/-! ## Dictionary helper lemmas -/

theorem alistGet?_cons {β : Type} (p : String × β) (l : List (String × β))
    (k : String) :
    alistGet? (p :: l) k = if p.1 == k then some p.2 else alistGet? l k := by
  by_cases h : p.1 == k <;> simp [alistGet?, List.find?, h]

theorem alistHas_cons {β : Type} (p : String × β) (l : List (String × β))
    (k : String) :
    alistHas (p :: l) k = (p.1 == k || alistHas l k) := by
  simp [alistHas]

theorem alistGet?_set_self {β : Type} (m : List (String × β)) (k : String)
    (v : β) : alistGet? (alistSet m k v) k = some v := by
  induction m with
  | nil => simp [alistSet, alistGet?, List.find?]
  | cons p rest ih =>
    by_cases h : p.1 == k
    · simp [alistSet, h, alistGet?_cons]
    · simp [alistSet, h, alistGet?_cons, ih]

theorem alistHas_set_self {β : Type} (m : List (String × β)) (k : String)
    (v : β) : alistHas (alistSet m k v) k = true := by
  induction m with
  | nil => simp [alistSet, alistHas]
  | cons p rest ih =>
    by_cases h : p.1 == k
    · simp [alistSet, h, alistHas_cons]
    · simp [alistSet, h, alistHas_cons, ih]

theorem alistHas_set_ne {β : Type} (m : List (String × β)) (k k2 : String)
    (v : β) (hne : k2 ≠ k) : alistHas (alistSet m k v) k2 = alistHas m k2 := by
  induction m with
  | nil =>
    simp [alistSet, alistHas]
    exact fun h => absurd h.symm hne
  | cons p rest ih =>
    by_cases h : p.1 == k
    · have hpk : p.1 = k := by simpa using h
      simp [alistSet, h, alistHas_cons, hpk]
    · simp [alistSet, h, alistHas_cons, ih]

/-! ## Startup / loop helper lemmas -/

theorem mem_slackbot_start_tools (servers : List ServerHandle) (u : Tool)
    (hu : u ∈ (slackbot_start_tools servers).2) :
    ∃ s ∈ servers, s.start_exc = none ∧ u ∈ s.tools ∧ u.is_allowed = true := by
  induction servers with
  | nil => simp [slackbot_start_tools] at hu
  | cons s rest ih =>
    cases hse : s.start_exc with
    | some e =>
      rw [slackbot_start_tools, hse] at hu
      obtain ⟨w, hw, hrest⟩ := ih hu
      exact ⟨w, List.mem_cons_of_mem _ hw, hrest⟩
    | none =>
      rw [slackbot_start_tools, hse] at hu
      simp only [List.mem_append] at hu
      cases hu with
      | inl h =>
        rw [List.mem_filter] at h
        exact ⟨s, List.mem_cons_self _ _, hse, h.1, h.2⟩
      | inr h =>
        obtain ⟨w, hw, hrest⟩ := ih h
        exact ⟨w, List.mem_cons_of_mem _ hw, hrest⟩

theorem find?_eq_none_of_any_false {α : Type} (l : List α) (p : α → Bool)
    (h : l.any p = false) : l.find? p = none := by
  rw [List.find?_eq_none]
  intro x hx hpx
  rw [← Bool.not_eq_true, List.any_eq_true] at h
  exact h ⟨x, hx, hpx⟩

theorem execute_tool_sb_loop_skip (oracle : Oracle) (nm : String) (args : Args)
    (pre post : List ServerHandle)
    (h : ∀ s ∈ pre, s.tools.any (fun t => t.name == nm && t.is_allowed) = false) :
    execute_tool_sb_loop oracle nm args (pre ++ post)
      = execute_tool_sb_loop oracle nm args post := by
  induction pre with
  | nil => rfl
  | cons s rest ih =>
    have hs := h s (List.mem_cons_self _ _)
    rw [List.cons_append, execute_tool_sb_loop, hs]
    simp only [Bool.false_eq_true, if_false]
    exact ih (fun w hw => h w (List.mem_cons_of_mem _ hw))

theorem execute_tool_slackbot_loop_skip (cfg : PromptsConfig) (oracle : Oracle)
    (nm : String) (args : Args) (oq : String) (pre post : List ServerHandle)
    (h : ∀ s ∈ pre, s.tools.any (fun t => t.name == nm && t.is_allowed) = false) :
    execute_tool_slackbot_loop cfg oracle nm args oq (pre ++ post)
      = execute_tool_slackbot_loop cfg oracle nm args oq post := by
  induction pre with
  | nil => rfl
  | cons s rest ih =>
    have hs := find?_eq_none_of_any_false s.tools _ (h s (List.mem_cons_self _ _))
    rw [List.cons_append, execute_tool_slackbot_loop, hs]
    exact ih (fun w hw => h w (List.mem_cons_of_mem _ hw))

/-! ## Claims -/

/-- C2: for every server whose connected session reports at least one tool,
`Server.get_tools` returns the empty list and leaves `tools_cache` unset: the
loop constructs `Tool` with a `server_name` keyword argument that
`Tool.__init__` does not accept, the resulting `TypeError` is caught by the
enclosing handler, and the function returns `[]` with the state unchanged
(so a non-empty result would require the construction to succeed for every
listed tool, which it never does). -/
theorem claim_C2_get_tools_typeerror (st : ServerState) (tds : List ToolDef)
    (hSess : st.session = some tds) (hTds : tds ≠ []) :
    server_get_tools st = ([], st) := by
  obtain ⟨td, rest, rfl⟩ := List.exists_cons_of_ne_nil hTds
  have hca : construct_all st.app_config st.allowed_tools (td :: rest)
      = Except.error
          "TypeError: __init__() got an unexpected keyword argument 'server_name'" :=
    rfl
  simp only [server_get_tools, hSess, hca]

/-- Witness for C2 at a concrete server state. -/
theorem claim_C2_witness : server_get_tools stubServerState = ([], stubServerState) :=
  claim_C2_get_tools_typeerror stubServerState [stubToolDef] (by rfl) (by simp)

/-- C3 counterexample: a pending clarification recorded for channel `C1CHAN`
during user `userU`'s turn routes a message from a *different* user `userV`
in the same channel into clarification resolution (the routing condition of
slackbot.py line 192 consults only the channel), reading — and, when the
branch completes, clearing — the request recorded for `userU`; the claimed
fresh-intent routing would require the first conjunct to be `false`. -/
theorem claim_C3_counterexample :
    process_routes_to_clarification pendingFromU
        { channel := "C1CHAN", user := "userV", text := "BTC" } = true ∧
    process_routes_to_clarification pendingFromU
        { channel := "C9CHAN", user := "userV", text := "BTC" } = false ∧
    get_pending_request pendingFromU "C1CHAN"
      = some { tool_name := "unknown", missing_params := [],
               ambiguous_query := some "what is the price?",
               suggested_values := none, question := "Which symbol do you want?" } ∧
    clear_pending_request pendingFromU "C1CHAN" = [] :=
  ⟨rfl, rfl, rfl, rfl⟩

/-- C3 (amended): pending-clarification state is scoped per channel, not per
(channel, user): once a clarification is recorded for channel `c`, a
subsequent message in `c` from any user routes to clarification resolution;
only messages from a different channel are unaffected; and the recorded
request — retrievable by channel alone — carries no user identity. -/
theorem claim_C3_channel_scoped (m : PendingMap) (c c2 u2 x tn q : String)
    (oq : Option String) (hDiff : c2 ≠ c) :
    process_routes_to_clarification
        ((create_elicitation_request m c tn q none none oq).2)
        { channel := c, user := u2, text := x } = true ∧
    process_routes_to_clarification
        ((create_elicitation_request m c tn q none none oq).2)
        { channel := c2, user := u2, text := x }
      = process_routes_to_clarification m { channel := c2, user := u2, text := x } ∧
    get_pending_request ((create_elicitation_request m c tn q none none oq).2) c
      = some { tool_name := tn, missing_params := [], ambiguous_query := oq,
               suggested_values := none, question := q } := by
  refine ⟨?_, ?_, ?_⟩
  · simpa [process_routes_to_clarification, has_pending_request,
      create_elicitation_request] using alistHas_set_self m c _
  · simpa [process_routes_to_clarification, has_pending_request,
      create_elicitation_request] using alistHas_set_ne m c c2 _ hDiff
  · simpa [get_pending_request, create_elicitation_request] using
      alistGet?_set_self m c _

/-- Witness for C3 (amended) at concrete channels and users. -/
theorem claim_C3_witness :
    process_routes_to_clarification
        ((create_elicitation_request [] "CHAN" "get_price" "Which symbol?" none none
          (some "price?")).2)
        { channel := "CHAN", user := "userV", text := "BTC" } = true ∧
    process_routes_to_clarification
        ((create_elicitation_request [] "CHAN" "get_price" "Which symbol?" none none
          (some "price?")).2)
        { channel := "OTHER", user := "userV", text := "BTC" }
      = process_routes_to_clarification []
          { channel := "OTHER", user := "userV", text := "BTC" } ∧
    get_pending_request
        ((create_elicitation_request [] "CHAN" "get_price" "Which symbol?" none none
          (some "price?")).2) "CHAN"
      = some { tool_name := "get_price", missing_params := [],
               ambiguous_query := some "price?", suggested_values := none,
               question := "Which symbol?" } :=
  claim_C3_channel_scoped [] "CHAN" "OTHER" "userV" "BTC" "get_price"
    "Which symbol?" (some "price?") (by decide)

/-- C5 (amended): `main.py`'s `Server.run_tool` implements the bounded retry
— a first-attempt failure is followed by one 1-second backoff and exactly one
retry whose success is returned, and a second failure propagates unmodified
with no third attempt — while `utils/server.py`'s `Server.run_tool` makes
exactly one `call_tool` attempt and converts its failure into an
`"Error: ..."` string instead of retrying or propagating. -/
theorem claim_C5_retry_policy (nm e e1 e2 : String) (r : CallToolResult) :
    main_run_tool nm (some (fun n => if n == 0 then Except.error e else Except.ok r))
      = { result := Except.ok r, attempts := 2, sleeps := [1] } ∧
    main_run_tool nm
        (some (fun n => if n == 0 then Except.error e1 else Except.error e2))
      = { result := Except.error e2, attempts := 2, sleeps := [1] } ∧
    server_run_tool (some (fun n => if n == 0 then Except.error e else Except.ok r))
        nm []
      = ("Error: " ++ e, 1) :=
  ⟨rfl, rfl, rfl⟩

/-- C5 counterexample: with `utils/server.py`'s `Server.run_tool` (one of the
`Server` variants exposing `run_tool`), a transient first failure that a
retry would turn into `"payload"` instead yields the error string after a
single attempt — the claimed retry-then-succeed behaviour does not hold for
every variant. -/
theorem claim_C5_counterexample :
    server_run_tool
        (some (fun n => if n == 0 then Except.error "boom"
          else Except.ok { isError := false, content := "payload" }))
        "get_price" []
      = ("Error: boom", 1) ∧
    ("Error: boom" : String) ≠ "payload" :=
  ⟨rfl, by decide⟩

/-- C7: `validate_tool_call` is deterministic and oracle-free: it returns
`None` exactly when every required key is present (in particular when the
required list is empty), and otherwise the clarification question built from
exactly the required keys absent from the argument mapping, each with its
declared description or the fixed placeholder. -/
theorem claim_C7_validate_deterministic (tool_name : String) (args : Args)
    (tool : Tool) :
    (validate_tool_call tool_name args tool = none ↔
      tool.get_required_parameters.filter (fun p => !(alistHas args p)) = []) ∧
    (tool.get_required_parameters.filter (fun p => !(alistHas args p)) ≠ [] →
      validate_tool_call tool_name args tool
        = some (missing_params_question tool_name tool
            (tool.get_required_parameters.filter (fun p => !(alistHas args p))))) := by
  unfold validate_tool_call
  by_cases hreq : tool.get_required_parameters.isEmpty
  · have h0 : tool.get_required_parameters = [] := by
      simpa [List.isEmpty_iff] using hreq
    simp [hreq, h0]
  · by_cases hmiss :
      (tool.get_required_parameters.filter (fun p => !(alistHas args p))).isEmpty
    · have h1 : tool.get_required_parameters.filter (fun p => !(alistHas args p)) = [] := by
        simpa [List.isEmpty_iff] using hmiss
      simp [hreq, hmiss, h1]
    · have h1 : tool.get_required_parameters.filter (fun p => !(alistHas args p)) ≠ [] := by
        simpa [List.isEmpty_iff] using hmiss
      simp [hreq, hmiss, h1]

/-- Witness for C7: calling `get_price` with no arguments yields the question
listing exactly the missing `symbol` with its declared description. -/
theorem claim_C7_witness :
    validate_tool_call "get_price" [] getPriceTool
      = some (missing_params_question "get_price" getPriceTool ["symbol"]) ∧
    missing_params_question "get_price" getPriceTool ["symbol"]
      = "To use the **get_price** tool, I need the following information:\n\n- **symbol**: Trading pair symbol" := by
  constructor
  · have h := (claim_C7_validate_deterministic "get_price" [] getPriceTool).2
    have hm : getPriceTool.get_required_parameters.filter
        (fun p => !(alistHas ([] : Args) p)) = ["symbol"] := rfl
    rw [hm] at h
    exact h (by simp)
  · rfl

/-- C4 counterexample: an oracle reply naming `transfer_funds`, which is not
in the catalog passed to the parser, yields `(None, None, "Sorry, I don't
have access...")` — in the decision encoding a *clarification* (third slot
set), not the refusal triple `(None, None, None)` — and the orchestrator's
clarification branch then records a pending elicitation request for the
channel under tool `"unknown"`. -/
theorem claim_C4_counterexample :
    parse_intent_response uncatalogedToolReply [webSearchTool]
      = (none, none, some sorryNoAccessMsg) ∧
    (parse_intent_response uncatalogedToolReply [webSearchTool]).2.2 ≠ none ∧
    process_clarification_outcome [] "CHAN" "send 5 bucks"
        (parse_intent_response uncatalogedToolReply [webSearchTool])
      = [("CHAN", c4RecordedRequest)] :=
  ⟨rfl, by decide, rfl⟩

/-- C4 (amended): for every intent-analysis oracle reply carrying
`TOOL:`/`ARGS:` markers (and none of the greeting, conversational or clarify
markers) whose named tool is not in the allowed catalog passed to the parser,
`_parse_intent_response` returns — without raising — the triple
`(None, None, q)` with `q` the fixed not-available message: a
clarification-typed decision carrying refusal text, which the orchestrator's
clarification branch records as a pending elicitation request under tool
`"unknown"`. -/
theorem claim_C4_unknown_tool_clarify (r : String) (catalog : List Tool)
    (toolLine : String) (restLines : List String) (m : PendingMap)
    (chan text : String)
    (h1 : pyIn "GREETING: true" r = false) (h2 : pyIn "GREETING:true" r = false)
    (h3 : pyIn "CONVERSATIONAL: true" r = false)
    (h4 : pyIn "CONVERSATIONAL:true" r = false)
    (h5 : pyIn "CLARIFY:" r = false)
    (h6 : pyIn "TOOL:" r = true) (h7 : pyIn "ARGS:" r = true)
    (h8 : (pySplitNl r).filter (fun l => pyStartsWith l "TOOL:")
      = toolLine :: restLines)
    (h9 : catalog.any
      (fun t => t.name == pyStrip (pyReplace toolLine "TOOL:" "")) = false) :
    parse_intent_response r catalog = (none, none, some sorryNoAccessMsg) ∧
    process_clarification_outcome m chan text (parse_intent_response r catalog)
      = (create_elicitation_request m chan "unknown" sorryNoAccessMsg none none
          (some text)).2 := by
  have hp : parse_intent_response r catalog = (none, none, some sorryNoAccessMsg) := by
    unfold parse_intent_response
    rw [h1, h2, h3, h4, h5, h6, h7]
    simp [h8, h9]
  have hq : (sorryNoAccessMsg == "") = false := by decide
  refine ⟨hp, ?_⟩
  rw [hp]
  simp [process_clarification_outcome, pyOrUnknown, hq]

/-- Witness for C4 (amended) at the concrete uncatalogued-tool reply. -/
theorem claim_C4_witness :
    parse_intent_response uncatalogedToolReply [webSearchTool]
      = (none, none, some sorryNoAccessMsg) ∧
    process_clarification_outcome [] "CHAN" "send 5 bucks"
        (parse_intent_response uncatalogedToolReply [webSearchTool])
      = (create_elicitation_request [] "CHAN" "unknown" sorryNoAccessMsg none none
          (some "send 5 bucks")).2 :=
  claim_C4_unknown_tool_clarify uncatalogedToolReply [webSearchTool]
    "TOOL: transfer_funds" [] [] "CHAN" "send 5 bucks"
    (by decide) (by decide) (by decide) (by decide) (by decide) (by decide)
    (by decide) (by decide) (by decide)

/-- C6 counterexample: an oracle reply whose arguments section contains an
unbalanced opening brace (`re.search(r'\{[^{}]*\}', ...)` finds no match)
does not yield the Refuse triple — `_parse_intent_response` returns an
*Execute* decision `(tool, {}, None)` with empty, unvalidated arguments. -/
theorem claim_C6_counterexample :
    parse_intent_response unbalancedArgsReply [webSearchTool]
      = (some "web_search", some [], none) ∧
    (parse_intent_response unbalancedArgsReply [webSearchTool]).1 ≠ none :=
  ⟨rfl, by decide⟩

/-- C6 (amended): malformed argument sections do not raise, but the two
parsers disagree with the claimed Refuse outcome in different ways: in
`elicitation.py`'s `_parse_intent_response`, a reply with
`TOOL:`/`ARGS:` markers, a catalogued tool, and an arguments section in which
the brace-pair search finds no match (in particular, unbalanced braces)
produces the Execute decision `(tool, {}, None)` with empty arguments; in
`slack_bot.py`'s `_analyze_intent`, a reply whose brace-depth scan from the
first `{` never returns to zero produces `(None, None, None)`. -/
theorem claim_C6_parse_outcomes (r : String) (catalog : List Tool)
    (toolLine : String) (restLines : List String) (r2 : String) (i : Nat)
    (h1 : pyIn "GREETING: true" r = false) (h2 : pyIn "GREETING:true" r = false)
    (h3 : pyIn "CONVERSATIONAL: true" r = false)
    (h4 : pyIn "CONVERSATIONAL:true" r = false)
    (h5 : pyIn "CLARIFY:" r = false)
    (h6 : pyIn "TOOL:" r = true) (h7 : pyIn "ARGS:" r = true)
    (h8 : (pySplitNl r).filter (fun l => pyStartsWith l "TOOL:")
      = toolLine :: restLines)
    (h9 : catalog.any
      (fun t => t.name == pyStrip (pyReplace toolLine "TOOL:" "")) = true)
    (h10 : searchBraceGroup (pyStrip (pyAfterArgsMarker r)) = none)
    (hFind : findSubFrom [lbraceChar] (cleaned_response r2).data 0 = some i)
    (hUnbal : braceDepthEnd ((cleaned_response r2).data.drop i) = none) :
    parse_intent_response r catalog
      = (some (pyStrip (pyReplace toolLine "TOOL:" "")), some [], none) ∧
    analyze_intent_parse r2 = (none, none, none) := by
  constructor
  · unfold parse_intent_response
    rw [h1, h2, h3, h4, h5, h6, h7]
    simp [h8, h9, h10]
  · unfold analyze_intent_parse
    simp only [hFind, hUnbal]

/-- Witness for C6 (amended) at the concrete unbalanced replies. -/
theorem claim_C6_witness :
    parse_intent_response unbalancedArgsReply [webSearchTool]
      = (some (pyStrip (pyReplace "TOOL: web_search" "TOOL:" "")), some [], none) ∧
    analyze_intent_parse unbalancedJsonReply = (none, none, none) :=
  claim_C6_parse_outcomes unbalancedArgsReply [webSearchTool]
    "TOOL: web_search" [] unbalancedJsonReply 0
    (by decide) (by decide) (by decide) (by decide) (by decide) (by decide)
    (by decide) (by decide) (by decide) (by decide) (by decide) (by decide)

/-- C1 counterexample: `transfer_funds` is disallowed on its owning server
`alpha` (non-empty allow-list `["get_price"]` lacking the name), yet
executing the name neither returns the denial message nor avoids the
transport: server `beta` exposes an *allowed* tool of the same name, so the
startup tool list passes the allow re-check and `SlackBot.execute_tool` runs
`run_tool` on `beta` (first match) and returns the oracle interpretation. -/
theorem claim_C1_counterexample :
    transferToolAlpha.is_allowed = false ∧
    c1Execution.1 = "INTERPRETED" ∧
    c1Execution.1 ≠ slackbot_denial_msg "transfer_funds" ∧
    hasRunToolCall c1Execution.2 = true :=
  ⟨rfl, rfl, by decide, rfl⟩

/-- C1 (amended): for every tool `t` whose owning server has a non-empty
allow-list not containing `t`'s name — *provided no other server exposes an
allowed tool of the same name* — `t` is not allowed, its
`format_description` renders as the empty string, the bot tool list built at
startup excludes `t`, and `SlackBot.execute_tool` on `t`'s name returns the
denial message with no `run_tool` (or oracle) call; when another server's
allow-list does admit a same-named tool, that server's tool is executed by
first match instead. -/
theorem claim_C1_allowlist_boundary (allowList : List String) (t : Tool)
    (servers : List ServerHandle) (cfg : PromptsConfig) (oracle : Oracle)
    (args : Args) (oq : String)
    (hNE : allowList ≠ [])
    (hNotMem : allowList.contains t.name = false)
    (hOv : t.is_allowed_override = some (allowed_flag allowList t.name))
    (hUnique : ∀ s ∈ servers, ∀ u ∈ s.tools, u.is_allowed = true → u.name ≠ t.name) :
    t.is_allowed = false ∧
    t.format_description = "" ∧
    t ∉ (slackbot_start_tools servers).2 ∧
    execute_tool_slackbot cfg oracle (slackbot_start_tools servers).2 servers
        t.name args oq
      = (slackbot_denial_msg t.name, []) := by
  have hie : allowList.isEmpty = false := by
    cases allowList with
    | nil => exact absurd rfl hNE
    | cons a l => rfl
  have hnm : t.name ∉ allowList := by simpa using hNotMem
  have hAl : t.is_allowed = false := by
    simp [Tool.is_allowed, hOv, allowed_flag, hie, hnm]
  refine ⟨hAl, ?_, ?_, ?_⟩
  · simp [Tool.format_description, hAl]
  · intro hmem
    obtain ⟨s, hs, _, hmemtools, hallow⟩ := mem_slackbot_start_tools servers t hmem
    rw [hAl] at hallow
    exact Bool.false_ne_true hallow
  · have hany : (slackbot_start_tools servers).2.any
        (fun u => u.name == t.name && u.is_allowed) = false := by
      cases hb : (slackbot_start_tools servers).2.any
          (fun u => u.name == t.name && u.is_allowed) with
      | false => rfl
      | true =>
        exfalso
        rw [List.any_eq_true] at hb
        obtain ⟨u, hu, hpu⟩ := hb
        rw [Bool.and_eq_true, beq_iff_eq] at hpu
        obtain ⟨s, hs, _, hut, hua⟩ := mem_slackbot_start_tools servers u hu
        exact hUnique s hs u hut hua hpu.1
    simp [execute_tool_slackbot, hany]

/-- Witness for C1 (amended): with server `alpha` alone — no same-named
allowed tool anywhere — the disallowed `transfer_funds` renders empty, is
absent from the tool list, and its execution is denied with no calls. -/
theorem claim_C1_witness :
    transferToolAlpha.is_allowed = false ∧
    transferToolAlpha.format_description = "" ∧
    transferToolAlpha ∉ (slackbot_start_tools [serverAlpha]).2 ∧
    execute_tool_slackbot fallbackConfig constOracle
        (slackbot_start_tools [serverAlpha]).2 [serverAlpha]
        transferToolAlpha.name [] "transfer please"
      = (slackbot_denial_msg transferToolAlpha.name, []) :=
  claim_C1_allowlist_boundary alphaAllowList transferToolAlpha [serverAlpha]
    fallbackConfig constOracle [] "transfer please"
    (by decide) (by decide) (by rfl) (by decide)

/-- C8 counterexample: a successful execution through `slackbot.py`'s
`SlackBot.execute_tool` whose extracted result is empty is *not* reported
with the fixed no-data message — the empty result is sent to the oracle for
interpretation and the oracle's answer is returned. -/
theorem claim_C8_counterexample :
    c8Execution.1 = "INTERPRETED" ∧
    c8Execution.1 ≠ "Tool executed but returned no data." ∧
    hasOracleCall c8Execution.2 = true :=
  ⟨rfl, by decide, rfl⟩

/-- C8 (amended): `slack_bot.py`'s `execute_tool` reports an empty or
all-whitespace result verbatim as "Tool executed but returned no data." and
makes no oracle call, invoking the oracle only for non-empty results;
`slackbot.py`'s `execute_tool` has no such guard and performs the oracle
interpretation call unconditionally after running the tool. -/
theorem claim_C8_empty_result (bot_tools : List Tool) (pre post : List ServerHandle)
    (srv : ServerHandle) (oracle : Oracle) (cfg : PromptsConfig) (nm : String)
    (args : Args) (oq : String)
    (hTop : bot_tools.any (fun t => t.name == nm && t.is_allowed) = true)
    (hPre : ∀ s ∈ pre, s.tools.any (fun t => t.name == nm && t.is_allowed) = false)
    (hSrv : srv.tools.any (fun t => t.name == nm && t.is_allowed) = true) :
    (pyStrip (srv.run_tool nm args) = "" →
      execute_tool_sb oracle bot_tools (pre ++ srv :: post) nm args
        = ("Tool executed but returned no data.",
           [CallEvent.runTool srv.name nm args])) ∧
    (pyStrip (srv.run_tool nm args) ≠ "" →
      hasOracleCall (execute_tool_sb oracle bot_tools (pre ++ srv :: post) nm args).2
        = true) ∧
    (execute_tool_slackbot cfg oracle bot_tools (pre ++ srv :: post) nm args oq).2
      = [CallEvent.runTool srv.name nm args, CallEvent.oracleCall] := by
  have hskip : execute_tool_sb_loop oracle nm args (pre ++ srv :: post)
      = execute_tool_sb_loop oracle nm args (srv :: post) :=
    execute_tool_sb_loop_skip oracle nm args pre (srv :: post) hPre
  refine ⟨?_, ?_, ?_⟩
  · intro hEmpty
    have hb : (pyStrip (extract_text (srv.run_tool nm args)) == "") = true := by
      rw [beq_iff_eq]
      exact hEmpty
    rw [execute_tool_sb, hTop]
    simp only [if_true]
    rw [hskip, execute_tool_sb_loop, hSrv]
    simp [hb]
  · intro hNonempty
    have h1 : (pyStrip (extract_text (srv.run_tool nm args)) == "") = false := by
      cases hb : (pyStrip (extract_text (srv.run_tool nm args)) == "") with
      | false => rfl
      | true =>
        exfalso
        rw [beq_iff_eq] at hb
        exact hNonempty hb
    have h0 : (extract_text (srv.run_tool nm args) == "") = false := by
      cases hb : (extract_text (srv.run_tool nm args) == "") with
      | false => rfl
      | true =>
        exfalso
        rw [beq_iff_eq] at hb
        apply hNonempty
        rw [extract_text] at hb
        rw [hb]
        rfl
    rw [execute_tool_sb, hTop]
    simp only [if_true]
    rw [hskip, execute_tool_sb_loop, hSrv]
    simp only [if_true, h0, h1, Bool.or_self, Bool.false_eq_true, if_false]
    split <;> rfl
  · have hfind : ∃ w, srv.tools.find? (fun t => t.name == nm && t.is_allowed) = some w := by
      rw [← Option.isSome_iff_exists, List.find?_isSome]
      rw [List.any_eq_true] at hSrv
      exact hSrv
    obtain ⟨w, hw⟩ := hfind
    have hskip2 : execute_tool_slackbot_loop cfg oracle nm args oq (pre ++ srv :: post)
        = execute_tool_slackbot_loop cfg oracle nm args oq (srv :: post) :=
      execute_tool_slackbot_loop_skip cfg oracle nm args oq pre (srv :: post) hPre
    rw [execute_tool_slackbot, hTop]
    simp only [if_true]
    rw [hskip2, execute_tool_slackbot_loop, hw]

/-- Witness for C8 (amended) at a concrete empty-result server. -/
theorem claim_C8_witness :
    execute_tool_sb constOracle [getPriceTool] [emptyResultServer] "get_price" []
      = ("Tool executed but returned no data.",
         [CallEvent.runTool "srv" "get_price" []]) ∧
    (execute_tool_slackbot fallbackConfig constOracle [getPriceTool]
        [emptyResultServer] "get_price" [] "price?").2
      = [CallEvent.runTool "srv" "get_price" [], CallEvent.oracleCall] := by
  have h := claim_C8_empty_result [getPriceTool] [] [] emptyResultServer constOracle
    fallbackConfig "get_price" [] "price?" (by decide) (by simp) (by decide)
  exact ⟨h.1 (by decide), h.2.2⟩

/-- C9: one configured server raising during `start()` does not prevent the
other servers from being started and their tools loaded — the startup loop's
result over a list containing a raising server equals the result with that
server removed — and the bot's tool list equals the concatenation, over
exactly the servers that started without raising, of the allowed tools each
reported. -/
theorem claim_C9_startup_isolation (servers : List ServerHandle) :
    (slackbot_start_tools servers).2
      = (servers.filter (fun s => s.start_exc.isNone)).flatMap
          (fun s => s.tools.filter (fun t => t.is_allowed)) ∧
    (∀ (pre post : List ServerHandle) (nm err : String) (ts : List Tool)
        (rt : String → Args → String) (hb : Bool),
      slackbot_start_tools (pre ++ failingServer nm err ts rt hb :: post)
        = slackbot_start_tools (pre ++ post)) := by
  constructor
  · induction servers with
    | nil => rfl
    | cons s rest ih =>
      cases hse : s.start_exc with
      | some e =>
        rw [slackbot_start_tools, hse]
        simp [List.filter_cons, hse, ih]
      | none =>
        rw [slackbot_start_tools, hse]
        simp [List.filter_cons, hse, ih]
  · intro pre post nm err ts rt hb
    induction pre with
    | nil =>
      rw [List.nil_append, List.nil_append, slackbot_start_tools]
      rfl
    | cons p pre2 ih =>
      rw [List.cons_append, List.cons_append, slackbot_start_tools,
        slackbot_start_tools, ih]

/-- C10 counterexample: with a server-specific `system_interpret_result`
configured for server `srv`, a 2001-character result exceeds the (default)
2000-character threshold — `is_large_result` is `true` — yet the selected
system prompt is the server override `"CUSTOM"`, identical to the prompt
selected below the threshold and distinct from the large-result default
template: the claimed iff between threshold excess and large-template
selection fails. -/
theorem claim_C10_counterexample :
    is_large_result overrideCfg bigResult = true ∧
    get_system_interpret_prompt overrideCfg (some "srv")
        (is_large_result overrideCfg bigResult) = "CUSTOM" ∧
    get_system_interpret_prompt overrideCfg (some "srv") true
      = get_system_interpret_prompt overrideCfg (some "srv") false ∧
    (alistGet? overrideCfg.defaults "system_interpret_large").getD ""
      = "Extract and present the most relevant information." ∧
    ("CUSTOM" : String) ≠ "Extract and present the most relevant information." := by
  have hlen : pyLen bigResult = 2001 := by
    show (List.replicate 2001 'a').length = 2001
    rw [List.length_replicate]
  have h1 : is_large_result overrideCfg bigResult = true := by
    unfold is_large_result
    simp only [hlen]
    rfl
  refine ⟨h1, ?_, rfl, rfl, by decide⟩
  rw [h1]
  rfl

/-- C10 (amended): `is_large_result` holds iff the result's length strictly
exceeds the configured `large_response_chars` threshold (2000 when
unconfigured), and — in the absence of a server-specific
`system_interpret_result` override, which would win regardless of size — the
system interpret prompt is the large template exactly above the threshold
and the standard template at or below it. -/
theorem claim_C10_threshold (cfg : PromptsConfig) (s : String) (sn : String)
    (hNoOv : system_interpret_override cfg (some sn) = none) :
    is_large_result cfg s
      = decide (pyLen s >
          (alistGet? cfg.thresholds "large_response_chars").getD 2000) ∧
    get_system_interpret_prompt cfg (some sn) (is_large_result cfg s)
      = (if pyLen s > (alistGet? cfg.thresholds "large_response_chars").getD 2000 then
           (alistGet? cfg.defaults "system_interpret_large").getD
             "Extract and present relevant information."
         else
           (alistGet? cfg.defaults "system_interpret_result").getD
             "Analyze and present useful information.") ∧
    (cfg.thresholds = [] → is_large_result cfg s = decide (pyLen s > 2000)) := by
  refine ⟨rfl, ?_, ?_⟩
  · rw [get_system_interpret_prompt, hNoOv]
    by_cases h : pyLen s > (alistGet? cfg.thresholds "large_response_chars").getD 2000
    · simp [is_large_result, h]
    · simp [is_large_result, h]
  · intro h
    simp [is_large_result, h, alistGet?]

/-- Witness for C10 (amended) with the (override-free) fallback
configuration and a 2001-character result. -/
theorem claim_C10_witness :
    is_large_result fallbackConfig bigResult
      = decide (pyLen bigResult >
          (alistGet? fallbackConfig.thresholds "large_response_chars").getD 2000) ∧
    get_system_interpret_prompt fallbackConfig (some "srv")
        (is_large_result fallbackConfig bigResult)
      = (if pyLen bigResult >
            (alistGet? fallbackConfig.thresholds "large_response_chars").getD 2000 then
           (alistGet? fallbackConfig.defaults "system_interpret_large").getD
             "Extract and present relevant information."
         else
           (alistGet? fallbackConfig.defaults "system_interpret_result").getD
             "Analyze and present useful information.") ∧
    (fallbackConfig.thresholds = [] →
      is_large_result fallbackConfig bigResult = decide (pyLen bigResult > 2000)) :=
  claim_C10_threshold fallbackConfig bigResult "srv" (by rfl)

end McpSlackBot
